import Mathlib

/-!
Verification of the landmark-based hand-pose classifier in
`PythonBackend/` (the Sign-Language-To-Text converter).

Coordinates are modelled as exact rationals (every IEEE float is a
rational); the Euclidean `distance` and the joint angle `angle_deg`,
which involve square roots and the inverse cosine, take values in `ℝ`.
Python list indexing without a bounds guard is modelled with `List.get?`
(an out-of-range access, an `IndexError` in Python, becomes `none`);
the letter modules that first check `len(landmarks)` are modelled with
total functions that read via `List.getD`, which those guards make
faithful on every list the body is ever evaluated on.

Each `Hands/<letter>` module of the source defines its own identical
`class Point`; here a single structure stands for all of them.  The
websocket pipeline (`ws_server.py`) builds points as `Point(lm.x, lm.y)`,
so the points the detectors see always carry `z = 0`.
-/

/-- One hand landmark: the `class Point` defined in every
`Hands/<letter>` module (`x`, `y`, and a `z` that defaults to `0.0`). -/
structure Point where
  x : ℚ
  y : ℚ
  z : ℚ
deriving DecidableEq, Repr

/-- The default point used to totalise guarded list reads. -/
def defaultPoint : Point := ⟨0, 0, 0⟩

/-- Guarded read `landmarks[i]`: every use below sits behind a
`len(landmarks)` check of the source, which keeps it in bounds. -/
def lmRead (l : List Point) (i : Nat) : Point := l.getD i defaultPoint

/-- Mirroring of one landmark across the vertical midline
(`Point(1 - lm.x, lm.y, lm.z)` in `Hands/C/left.py`, `Hands/D/left.py`,
`Hands/F/left.py`). -/
def mirrorPoint (p : Point) : Point := ⟨1 - p.x, p.y, p.z⟩

/-- Mirroring of a whole landmark list (the left-hand modules build a
fresh mirrored list before running the right-hand-frame logic). -/
def mirrorList (l : List Point) : List Point := l.map mirrorPoint

/-- Euclidean distance (`distance` in `Hands/C`, `Hands/D`, `Hands/F`):
`math.sqrt((a.x-b.x)**2 + (a.y-b.y)**2 + (a.z-b.z)**2)`. -/
noncomputable def distance (a b : Point) : ℝ :=
  Real.sqrt (((a.x - b.x) ^ 2 + (a.y - b.y) ^ 2 + (a.z - b.z) ^ 2 : ℚ) : ℝ)

namespace HandsA

/-- `detect_right_hand` of `Hands/A/right.py`.  The source reads
`points[8]`, `points[6]`, … with no length guard, so a list missing any
of those indices raises `IndexError`; that exception is the `none`
result here. -/
def detect_right_hand (points : List Point) : Option String :=
  match points.get? 8, points.get? 6, points.get? 12, points.get? 10,
        points.get? 16, points.get? 14, points.get? 20, points.get? 18,
        points.get? 4, points.get? 3 with
  | some p8, some p6, some p12, some p10, some p16, some p14, some p20,
    some p18, some p4, some p3 =>
      some (if (p8.y > p6.y ∧ p12.y > p10.y ∧ p16.y > p14.y ∧ p20.y > p18.y)
               ∧ p4.x > p3.x then "A" else "")
  | _, _, _, _, _, _, _, _, _, _ => none

/-- `detect_left_hand` of `Hands/A/left.py`.  Unlike the right-hand
rule it compares fingertips with the MCP joints (5, 9, 13, 17) and the
thumb tip with landmark 2; it also has no length guard. -/
def detect_left_hand (points : List Point) : Option String :=
  match points.get? 8, points.get? 5, points.get? 12, points.get? 9,
        points.get? 16, points.get? 13, points.get? 20, points.get? 17,
        points.get? 4, points.get? 2 with
  | some p8, some p5, some p12, some p9, some p16, some p13, some p20,
    some p17, some p4, some p2 =>
      some (if (p8.y > p5.y ∧ p12.y > p9.y ∧ p16.y > p13.y ∧ p20.y > p17.y)
               ∧ p4.x < p2.x then "A" else "")
  | _, _, _, _, _, _, _, _, _, _ => none

end HandsA

namespace HandsB

/-- The cross product computed in `_is_right_hand_palm_visible` of
`Hands/B/right.py` (wrist→index_MCP × wrist→pinky_MCP, z-component). -/
def cross_product (l : List Point) : ℚ :=
  ((lmRead l 5).x - (lmRead l 0).x) * ((lmRead l 17).y - (lmRead l 0).y)
    - ((lmRead l 5).y - (lmRead l 0).y) * ((lmRead l 17).x - (lmRead l 0).x)

/-- `_is_right_hand_palm_visible`: positive cross product means the
right palm faces the camera. -/
def is_right_hand_palm_visible (l : List Point) : Prop :=
  cross_product l > 0

instance (l : List Point) : Decidable (is_right_hand_palm_visible l) := by
  unfold is_right_hand_palm_visible; infer_instance

/-- `_are_four_fingers_extended`: each fingertip above (smaller y than)
its MCP joint. -/
def are_four_fingers_extended (l : List Point) : Prop :=
  (lmRead l 8).y < (lmRead l 5).y ∧ (lmRead l 12).y < (lmRead l 9).y ∧
  (lmRead l 16).y < (lmRead l 13).y ∧ (lmRead l 20).y < (lmRead l 17).y

instance (l : List Point) : Decidable (are_four_fingers_extended l) := by
  unfold are_four_fingers_extended; infer_instance

/-- `_is_thumb_folded_against_palm`: the squared-distance check plus the
inward-position check (with its normal/flipped orientation branches). -/
def is_thumb_folded_against_palm (l : List Point) : Prop :=
  (((lmRead l 4).x - (lmRead l 5).x) ^ 2 + ((lmRead l 4).y - (lmRead l 5).y) ^ 2
      < ((lmRead l 4).x - (lmRead l 2).x) ^ 2 + ((lmRead l 4).y - (lmRead l 2).y) ^ 2)
  ∧ (if (lmRead l 0).x < (lmRead l 5).x
     then (lmRead l 0).x < (lmRead l 4).x ∧ (lmRead l 4).x < (lmRead l 5).x
     else (lmRead l 5).x < (lmRead l 4).x ∧ (lmRead l 4).x < (lmRead l 0).x)

instance (l : List Point) : Decidable (is_thumb_folded_against_palm l) := by
  unfold is_thumb_folded_against_palm; infer_instance

/-- `_is_thumb_aligned_horizontally`: `|thumb_tip.y - index_MCP.y|`
below the (absolute) `thumb_alignment_threshold`. -/
def is_thumb_aligned_horizontally (thr : ℚ) (l : List Point) : Prop :=
  |(lmRead l 4).y - (lmRead l 5).y| < thr

instance (thr : ℚ) (l : List Point) :
    Decidable (is_thumb_aligned_horizontally thr l) := by
  unfold is_thumb_aligned_horizontally; infer_instance

/-- `detect_right_hand_b_gesture` of `Hands/B/right.py`: length guard,
palm-orientation gate, then the three pose conditions. -/
def detect_right_hand_b_gesture (thr : ℚ) (l : List Point) : String :=
  if l.length ≠ 21 then ""
  else if ¬ is_right_hand_palm_visible l then ""
  else if are_four_fingers_extended l ∧ is_thumb_folded_against_palm l ∧
          is_thumb_aligned_horizontally thr l then "B"
  else ""

/-- `detect_right_hand` of `Hands/B/right.py`: a fresh detector with the
default `thumb_alignment_threshold = 0.1`. -/
def detect_right_hand (l : List Point) : String :=
  detect_right_hand_b_gesture 0.1 l

/-- Modelled from the spec: `Hands/B/left.py` is not among the source
files (only `ws_server.py` imports it).  Per §4.2 of the spec the
Normalizer replaces every x by `1 - x` for a left hand and the symbol
rules, authored in the right-hand frame, apply unmodified — exactly the
pattern of the left modules of C, D and F that are present. -/
def detect_left_hand (l : List Point) : String :=
  detect_right_hand (mirrorList l)

end HandsB

namespace HandsC

open Classical

/-- One finger's contribution to `curved_count` in
`_detect_c_shape_internal` of `Hands/C/left.py`: tip far enough from the
wrist and tip not too far forward in z. -/
noncomputable def curvedCond (wrist tip mcp : Point) : Prop :=
  distance tip wrist > distance mcp wrist * 0.9 ∧ tip.z > mcp.z - 0.05

/-- `_detect_c_shape_internal` of `Hands/C/left.py`: palm orientation,
finger curvature count, thumb positioning, smooth arc, and the overall
shape checks, in the source's early-return structure. -/
noncomputable def detect_c_shape_internal (landmarks : List Point) : Prop :=
  let wrist := lmRead landmarks 0
  let thumb_tip := lmRead landmarks 4
  let thumb_ip := lmRead landmarks 3
  let thumb_mcp := lmRead landmarks 2
  let index_tip := lmRead landmarks 8
  let index_mcp := lmRead landmarks 5
  let middle_tip := lmRead landmarks 12
  let middle_mcp := lmRead landmarks 9
  let ring_tip := lmRead landmarks 16
  let ring_mcp := lmRead landmarks 13
  let pinky_tip := lmRead landmarks 20
  let pinky_mcp := lmRead landmarks 17
  -- normal = np.cross(index_mcp - wrist, pinky_mcp - wrist); normal[2] < 0 → False
  let normal_z : ℚ :=
    (index_mcp.x - wrist.x) * (pinky_mcp.y - wrist.y)
      - (index_mcp.y - wrist.y) * (pinky_mcp.x - wrist.x)
  let curved_count : ℕ :=
    (if curvedCond wrist index_tip index_mcp then 1 else 0)
      + (if curvedCond wrist middle_tip middle_mcp then 1 else 0)
      + (if curvedCond wrist ring_tip ring_mcp then 1 else 0)
      + (if curvedCond wrist pinky_tip pinky_mcp then 1 else 0)
  let thumb_extended := distance thumb_tip thumb_mcp > distance thumb_ip thumb_mcp
  let palm_width := distance index_mcp pinky_mcp
  let thumb_separation_ok :=
    (0.6 * palm_width < distance thumb_tip index_tip ∧
      distance thumb_tip index_tip < 1.8 * palm_width) ∧
    (0.8 * palm_width < distance thumb_tip pinky_tip ∧
      distance thumb_tip pinky_tip < 2.0 * palm_width)
  let smooth_arc :=
    |distance index_tip wrist - distance middle_tip wrist| ≤ 0.08 ∧
    |distance middle_tip wrist - distance ring_tip wrist| ≤ 0.08 ∧
    |distance ring_tip wrist - distance pinky_tip wrist| ≤ 0.08
  let fingers_not_extended :=
    distance index_tip index_mcp < distance index_mcp wrist * 1.2 ∧
    distance middle_tip middle_mcp < distance middle_mcp wrist * 1.2 ∧
    distance ring_tip ring_mcp < distance ring_mcp wrist * 1.2 ∧
    distance pinky_tip pinky_mcp < distance pinky_mcp wrist * 1.2
  let fingers_not_closed :=
    distance index_tip wrist > distance index_mcp wrist * 0.8 ∧
    distance middle_tip wrist > distance middle_mcp wrist * 0.8 ∧
    distance ring_tip wrist > distance ring_mcp wrist * 0.8 ∧
    distance pinky_tip wrist > distance pinky_mcp wrist * 0.8
  ¬ normal_z < 0 ∧ ¬ curved_count < 3 ∧
    (thumb_extended ∧ thumb_separation_ok) ∧
    (smooth_arc ∧ fingers_not_extended ∧ fingers_not_closed)

/-- `detect_left_hand` of `Hands/C/left.py`: degraded-input guard, then
the right-hand-frame internal logic on a freshly mirrored list. -/
noncomputable def detect_left_hand (landmarks : List Point) : Prop :=
  if landmarks = [] ∨ landmarks.length < 21 then False
  else detect_c_shape_internal (mirrorList landmarks)

/-- Modelled from the spec: `Hands/C/right.py` is not among the source
files (only `ws_server.py` imports it).  Per §4.2/§9 of the spec the
symbol rules are authored once in the right-hand reference frame — the
very logic `_detect_c_shape_internal` holds — and a right hand is passed
through unmirrored, with the §6 degraded-input guard. -/
noncomputable def detect_right_hand (landmarks : List Point) : Prop :=
  if landmarks = [] ∨ landmarks.length < 21 then False
  else detect_c_shape_internal landmarks

end HandsC

namespace HandsD

open Classical

/-- `vec` of `Hands/D/right.py` / `Hands/D/left.py`: the displacement
`b - a` as a 3-component value. -/
def vec (a b : Point) : ℚ × ℚ × ℚ := (b.x - a.x, b.y - a.y, b.z - a.z)

/-- Dot product of two 3-component values (`np.dot`). -/
def dot (v w : ℚ × ℚ × ℚ) : ℚ := v.1 * w.1 + v.2.1 * w.2.1 + v.2.2 * w.2.2

/-- Euclidean norm of a 3-component value (`np.linalg.norm`). -/
noncomputable def vnorm (v : ℚ × ℚ × ℚ) : ℝ :=
  Real.sqrt ((v.1 ^ 2 + v.2.1 ^ 2 + v.2.2 ^ 2 : ℚ) : ℝ)

/-- `angle_deg(a, b, c)` of `Hands/D/right.py` and `Hands/D/left.py`:
the angle at `b` in degrees; `180.0` when either ray is shorter than
`1e-8`, otherwise the arc cosine of the normalized dot product clamped
to `[-1, 1]`, converted by `math.degrees`. -/
noncomputable def angle_deg (a b c : Point) : ℝ :=
  let v1 := vec b a
  let v2 := vec b c
  let n1 := vnorm v1
  let n2 := vnorm v2
  if n1 < 1e-8 ∨ n2 < 1e-8 then 180
  else Real.arccos (max (-1) (min 1 ((dot v1 v2 : ℝ) / (n1 * n2)))) * 180 / Real.pi

/-- `is_curled` inside `detect_right_hand` of `Hands/D/right.py` (and
identically inside `_detect_d_internal` of `Hands/D/left.py`). -/
noncomputable def is_curled (mcp pip tip : Point) : Prop :=
  angle_deg mcp pip tip < 120 ∨ distance tip mcp < distance pip mcp * 0.95

/-- The body of `detect_right_hand` of `Hands/D/right.py` after its
length guard (index extension, curled-count, thumb contacts and the
index/middle separation). -/
noncomputable def d_body (landmarks : List Point) : Prop :=
  let wrist := lmRead landmarks 0
  let thumb_tip := lmRead landmarks 4
  let index_mcp := lmRead landmarks 5
  let index_pip := lmRead landmarks 6
  let index_dip := lmRead landmarks 7
  let index_tip := lmRead landmarks 8
  let middle_mcp := lmRead landmarks 9
  let middle_pip := lmRead landmarks 10
  let middle_tip := lmRead landmarks 12
  let ring_mcp := lmRead landmarks 13
  let ring_pip := lmRead landmarks 14
  let ring_tip := lmRead landmarks 16
  let pinky_mcp := lmRead landmarks 17
  let pinky_pip := lmRead landmarks 18
  let pinky_tip := lmRead landmarks 20
  let palm_width := distance index_mcp pinky_mcp
  let contact_threshold := max (palm_width * 0.4) 0.03
  let index_extended :=
    angle_deg index_mcp index_pip index_tip > 150 ∧
    angle_deg index_mcp index_dip index_tip > 140 ∧
    (index_tip.y : ℝ) < (index_mcp.y : ℝ) - 0.03
  let curled_count : ℕ :=
    (if is_curled middle_mcp middle_pip middle_tip then 1 else 0)
      + (if is_curled ring_mcp ring_pip ring_tip then 1 else 0)
      + (if is_curled pinky_mcp pinky_pip pinky_tip then 1 else 0)
  let thumb_contacts :=
    distance thumb_tip middle_tip < contact_threshold ∨
    distance thumb_tip ring_tip < contact_threshold ∨
    distance thumb_tip pinky_tip < contact_threshold
  let thumb_not_touch_index :=
    distance thumb_tip index_tip > max (palm_width * 0.25) 0.03
  let sep_ok := distance index_tip middle_tip > max (palm_width * 0.3) 0.05
  index_extended ∧ curled_count ≥ 2 ∧ thumb_contacts ∧
    thumb_not_touch_index ∧ sep_ok

/-- `detect_right_hand` of `Hands/D/right.py`: the degraded-input guard
(`not landmarks or len(landmarks) < 21`) and then the body, which reads
only indices 0 through 20. -/
noncomputable def detect_right_hand (landmarks : List Point) : Prop :=
  if landmarks = [] ∨ landmarks.length < 21 then False
  else d_body landmarks

/-- `_detect_d_internal` of `Hands/D/left.py` (textually the same tests
as the right-hand body, maintained as a separate copy). -/
noncomputable def detect_d_internal (landmarks : List Point) : Prop :=
  d_body landmarks

/-- `detect_left_hand` of `Hands/D/left.py`: guard, mirror the list,
then the internal right-hand-frame logic. -/
noncomputable def detect_left_hand (landmarks : List Point) : Prop :=
  if landmarks = [] ∨ landmarks.length < 21 then False
  else detect_d_internal (mirrorList landmarks)

end HandsD

namespace HandsF

open Classical

/-- `is_finger_straight_and_extended` inside `detect_right_hand` of
`Hands/F/right.py` (and identically inside
`_detect_f_real_camera_internal` of `Hands/F/left.py`); `dip` is taken
but unused, as in the source. -/
noncomputable def is_finger_straight_and_extended
    (palm_width palm_length : ℝ) (tip dip pip mcp : Point) : Prop :=
  (tip.y : ℝ) < (mcp.y : ℝ) - palm_width * 0.2 ∧
  distance tip mcp > palm_length * 0.7 ∧
  distance tip pip > distance pip mcp * 0.6

/-- The body of `detect_right_hand` of `Hands/F/right.py` after its
length guard: thumb–index tip contact, three straight spread fingers,
index positioning and the palm-orientation tolerance. -/
noncomputable def f_body (landmarks : List Point) : Prop :=
  let wrist := lmRead landmarks 0
  let thumb_tip := lmRead landmarks 4
  let thumb_ip := lmRead landmarks 3
  let thumb_mcp := lmRead landmarks 2
  let index_tip := lmRead landmarks 8
  let index_pip := lmRead landmarks 6
  let index_dip := lmRead landmarks 7
  let index_mcp := lmRead landmarks 5
  let middle_tip := lmRead landmarks 12
  let middle_dip := lmRead landmarks 11
  let middle_pip := lmRead landmarks 10
  let middle_mcp := lmRead landmarks 9
  let ring_tip := lmRead landmarks 16
  let ring_dip := lmRead landmarks 15
  let ring_pip := lmRead landmarks 14
  let ring_mcp := lmRead landmarks 13
  let pinky_tip := lmRead landmarks 20
  let pinky_dip := lmRead landmarks 19
  let pinky_pip := lmRead landmarks 18
  let pinky_mcp := lmRead landmarks 17
  let palm_width := distance index_mcp pinky_mcp
  let palm_length := distance wrist middle_mcp
  let tips_touching := distance thumb_tip index_tip < palm_width * 0.25
  let index_partially_bent :=
    distance index_tip index_mcp < palm_length * 0.8 * 0.85
  let thumb_natural_position :=
    distance thumb_tip thumb_mcp > distance thumb_ip thumb_mcp * 0.9
  let straight_fingers_count : ℕ :=
    (if is_finger_straight_and_extended palm_width palm_length
          middle_tip middle_dip middle_pip middle_mcp then 1 else 0)
      + (if is_finger_straight_and_extended palm_width palm_length
            ring_tip ring_dip ring_pip ring_mcp then 1 else 0)
      + (if is_finger_straight_and_extended palm_width palm_length
            pinky_tip pinky_dip pinky_pip pinky_mcp then 1 else 0)
  let good_spread :=
    (palm_width * 0.15 < distance middle_tip ring_tip ∧
      distance middle_tip ring_tip < palm_width * 0.5) ∧
    (palm_width * 0.15 < distance ring_tip pinky_tip ∧
      distance ring_tip pinky_tip < palm_width * 0.5)
  let index_separated_from_group :=
    distance index_tip middle_tip > palm_width * 0.3
  let index_not_pointing_up :=
    (index_tip.y : ℝ) > (middle_tip.y : ℝ) - palm_width * 0.1
  -- normal = np.cross(wrist→index_mcp, wrist→pinky_mcp); need normal[2] > -0.3
  let normal_z : ℚ :=
    (index_mcp.x - wrist.x) * (pinky_mcp.y - wrist.y)
      - (index_mcp.y - wrist.y) * (pinky_mcp.x - wrist.x)
  let palm_facing_forward := normal_z > -0.3
  (tips_touching ∧ index_partially_bent ∧ thumb_natural_position) ∧
    straight_fingers_count ≥ 2 ∧ good_spread ∧
    (index_separated_from_group ∧ index_not_pointing_up) ∧
    palm_facing_forward

/-- `detect_right_hand` of `Hands/F/right.py`: the degraded-input guard
and then the body. -/
noncomputable def detect_right_hand (landmarks : List Point) : Prop :=
  if landmarks = [] ∨ landmarks.length < 21 then False
  else f_body landmarks

/-- `_detect_f_real_camera_internal` of `Hands/F/left.py` (the same
tests as the right-hand body, maintained as a separate copy). -/
noncomputable def detect_f_real_camera_internal (landmarks : List Point) : Prop :=
  f_body landmarks

/-- `detect_left_hand_f_real_camera` of `Hands/F/left.py`: guard, a
freshly mirrored list, then the internal right-hand-frame logic. -/
noncomputable def detect_left_hand_f_real_camera (landmarks : List Point) : Prop :=
  if landmarks = [] ∨ landmarks.length < 21 then False
  else detect_f_real_camera_internal (mirrorList landmarks)

end HandsF

namespace WsServer

open Classical

/-- `LETTERS` of `ws_server.py`: the registered symbols, in registration
order. -/
def LETTERS : List String := ["A", "B", "C"]

/-- `convert_mediapipe_to_points` of `ws_server.py`: every letter's
`Point` class is constructed as `Point(lm.x, lm.y)`, so the z
coordinate is dropped (it defaults to `0.0`). -/
def convert_mediapipe_to_points (lms : List Point) : List Point :=
  lms.map (fun lm => ⟨lm.x, lm.y, 0⟩)

/-- The per-hand letter loop of `handle_client` in `ws_server.py`
(lines 90–104): for each letter of `LETTERS` in order, convert the
landmarks and call that letter's left or right detection function
depending on the handedness label; the first truthy result wins and the
loop breaks, otherwise the translation stays `""`.  A `none` result is
an exception escaping the loop (`Hands/A` can raise on short input),
which the surrounding `try`/`except` of `handle_client` absorbs. -/
noncomputable def classify (lms : List Point) (label : String) : Option String :=
  let pts := convert_mediapipe_to_points lms
  if label = "Left" then
    (HandsA.detect_left_hand pts).bind fun sA =>
      if sA ≠ "" then some "A"
      else if HandsB.detect_left_hand pts ≠ "" then some "B"
      else if HandsC.detect_left_hand pts then some "C"
      else some ""
  else
    (HandsA.detect_right_hand pts).bind fun sA =>
      if sA ≠ "" then some "A"
      else if HandsB.detect_right_hand pts ≠ "" then some "B"
      else if HandsC.detect_right_hand pts then some "C"
      else some ""

/-- Truthiness of one registered letter's rule on the converted points,
under the given handedness label (`if detected:` in the loop): a
non-empty string for A and B, the boolean itself for C. -/
noncomputable def ruleMatches (letter : String) (pts : List Point)
    (label : String) : Prop :=
  if letter = "A" then
    match (if label = "Left" then HandsA.detect_left_hand pts
           else HandsA.detect_right_hand pts) with
    | some s => s ≠ ""
    | none => False
  else if letter = "B" then
    (if label = "Left" then HandsB.detect_left_hand pts
     else HandsB.detect_right_hand pts) ≠ ""
  else if letter = "C" then
    (if label = "Left" then HandsC.detect_left_hand pts
     else HandsC.detect_right_hand pts)
  else False

/-- The classifier as §4.5 of the spec words it: evaluate each
registered rule in priority order and return the first symbol whose
rule returns true, or no match (`""`) when none does. -/
noncomputable def specClassify (lms : List Point) (label : String) : String :=
  let pts := convert_mediapipe_to_points lms
  ((LETTERS.find? fun L => decide (ruleMatches L pts label))).getD ""

end WsServer

/-- Scaling of all landmark x and y coordinates about the wrist
(landmark 0) by a factor `k`, the transformation of the spec's §8
scale-invariance property (z untouched, as the spec words it). -/
def scaleAboutWrist (k : ℚ) (l : List Point) : List Point :=
  let w := lmRead l 0
  l.map fun p => ⟨w.x + k * (p.x - w.x), w.y + k * (p.y - w.y), p.z⟩

/-- Heap read for the store-passing model of the detectors: a Python
`Point` object is a cell of the store, a landmark list is a list of
cell addresses. -/
def readPt (σ : List Point) (a : Nat) : Point := σ.getD a defaultPoint

/-- `detect_left_hand` of `Hands/C/left.py` at the heap level: the only
heap effect of the body is the construction of the fresh mirrored
`Point` objects (modelled as cells appended to the store); no field of
an existing cell is ever assigned. -/
noncomputable def HandsC.detect_left_hand_st (σ : List Point)
    (addrs : List Nat) : Prop × List Point :=
  if addrs = [] ∨ addrs.length < 21 then (False, σ)
  else
    let mirrored := mirrorList (addrs.map (readPt σ))
    (HandsC.detect_c_shape_internal mirrored, σ ++ mirrored)

/-- `detect_left_hand` of `Hands/D/left.py` at the heap level (fresh
mirrored points are the only allocation, nothing is assigned). -/
noncomputable def HandsD.detect_left_hand_st (σ : List Point)
    (addrs : List Nat) : Prop × List Point :=
  if addrs = [] ∨ addrs.length < 21 then (False, σ)
  else
    let mirrored := mirrorList (addrs.map (readPt σ))
    (HandsD.detect_d_internal mirrored, σ ++ mirrored)

/-- `detect_left_hand_f_real_camera` of `Hands/F/left.py` at the heap
level (fresh mirrored points are the only allocation). -/
noncomputable def HandsF.detect_left_hand_f_real_camera_st (σ : List Point)
    (addrs : List Nat) : Prop × List Point :=
  if addrs = [] ∨ addrs.length < 21 then (False, σ)
  else
    let mirrored := mirrorList (addrs.map (readPt σ))
    (HandsF.detect_f_real_camera_internal mirrored, σ ++ mirrored)

/-- A 21-point pose whose right-hand A rule fires: folded fingertips
(tip y above PIP y) with the thumb tip to the right of its IP joint.
Landmark 5 sits low (y = 2) so that the left-hand A rule — which
compares the index tip with landmark 5 instead of landmark 6 — rejects
the mirrored pose. -/
def aPose : List Point :=
  [⟨0, 0, 0⟩, ⟨0, 0, 0⟩, ⟨0, 0, 0⟩, ⟨0, 0, 0⟩, ⟨1, 0, 0⟩,
   ⟨0, 2, 0⟩, ⟨0, 0, 0⟩, ⟨0, 0, 0⟩, ⟨0, 1, 0⟩,
   ⟨0, 0, 0⟩, ⟨0, 0, 0⟩, ⟨0, 0, 0⟩, ⟨0, 1, 0⟩,
   ⟨0, 0, 0⟩, ⟨0, 0, 0⟩, ⟨0, 0, 0⟩, ⟨0, 1, 0⟩,
   ⟨0, 0, 0⟩, ⟨0, 0, 0⟩, ⟨0, 0, 0⟩, ⟨0, 1, 0⟩]

/-- A 21-point pose whose right-hand B rule fires (palm cross product
`0.01 > 0`, four fingertips above their MCPs, thumb folded between
wrist and index base, `|thumb_tip.y - index_MCP.y| = 0.06 < 0.1`), with
the index and middle fingertips close to the wrist relative to their
MCP-to-wrist distances. -/
def bPose : List Point :=
  [⟨0.5, 0.9, 0⟩,
   ⟨0.45, 0.85, 0⟩, ⟨0.4, 0.8, 0⟩, ⟨0.55, 0.75, 0⟩, ⟨0.7, 0.64, 0⟩,
   ⟨0.9, 0.7, 0⟩, ⟨0.7, 0.75, 0⟩, ⟨0.6, 0.72, 0⟩, ⟨0.52, 0.68, 0⟩,
   ⟨0.85, 0.68, 0⟩, ⟨0.75, 0.73, 0⟩, ⟨0.65, 0.7, 0⟩, ⟨0.52, 0.66, 0⟩,
   ⟨0.8, 0.66, 0⟩, ⟨0.75, 0.71, 0⟩, ⟨0.68, 0.68, 0⟩, ⟨0.6, 0.6, 0⟩,
   ⟨0.75, 0.8, 0⟩, ⟨0.72, 0.69, 0⟩, ⟨0.67, 0.64, 0⟩, ⟨0.62, 0.58, 0⟩]

lemma lmGet (l : List Point) (i : Nat) (h : i < l.length) :
    l.get? i = some (lmRead l i) := by
  rw [List.get?_eq_getElem?, lmRead, List.getD_eq_getElem?_getD,
    List.getElem?_eq_getElem h]
  rfl

lemma length_mirrorList (l : List Point) : (mirrorList l).length = l.length := by
  simp [mirrorList]

lemma mirrorList_nil_iff (l : List Point) : mirrorList l = [] ↔ l = [] := by
  simp [mirrorList]

lemma mirrorPoint_mirrorPoint (p : Point) : mirrorPoint (mirrorPoint p) = p := by
  cases p with
  | mk x y z => simp [mirrorPoint]

lemma mirrorList_mirrorList (l : List Point) : mirrorList (mirrorList l) = l := by
  simp [mirrorList, List.map_map, Function.comp_def, mirrorPoint_mirrorPoint]

lemma distance_nonneg (a b : Point) : 0 ≤ distance a b := Real.sqrt_nonneg _

lemma sqrt_le_mul_sqrt {A B : ℚ} {c : ℝ} (hc : 0 ≤ c)
    (h : (A : ℝ) ≤ c ^ 2 * (B : ℝ)) : Real.sqrt A ≤ c * Real.sqrt B := by
  have h2 : c * Real.sqrt B = Real.sqrt (c ^ 2 * B) := by
    rw [Real.sqrt_mul (sq_nonneg c), Real.sqrt_sq hc]
  rw [h2]
  exact Real.sqrt_le_sqrt h

lemma lmRead_take_of_lt (l : List Point) (n i : Nat) (h : i < n) :
    lmRead (l.take n) i = lmRead l i := by
  simp [lmRead, List.getD_eq_getElem?_getD, List.getElem?_take_of_lt h]

lemma readPt_append (σ m : List Point) (a : Nat) (h : a < σ.length) :
    readPt (σ ++ m) a = readPt σ a :=
  List.getD_append σ m defaultPoint a h

lemma detect_right_hand_A_eq (l : List Point) (h : 21 ≤ l.length) :
    HandsA.detect_right_hand l =
      some (if ((lmRead l 8).y > (lmRead l 6).y ∧ (lmRead l 12).y > (lmRead l 10).y ∧
                (lmRead l 16).y > (lmRead l 14).y ∧ (lmRead l 20).y > (lmRead l 18).y)
               ∧ (lmRead l 4).x > (lmRead l 3).x then "A" else "") := by
  unfold HandsA.detect_right_hand
  rw [lmGet l 8 (by omega), lmGet l 6 (by omega), lmGet l 12 (by omega),
    lmGet l 10 (by omega), lmGet l 16 (by omega), lmGet l 14 (by omega),
    lmGet l 20 (by omega), lmGet l 18 (by omega), lmGet l 4 (by omega),
    lmGet l 3 (by omega)]

lemma detect_left_hand_A_eq (l : List Point) (h : 21 ≤ l.length) :
    HandsA.detect_left_hand l =
      some (if ((lmRead l 8).y > (lmRead l 5).y ∧ (lmRead l 12).y > (lmRead l 9).y ∧
                (lmRead l 16).y > (lmRead l 13).y ∧ (lmRead l 20).y > (lmRead l 17).y)
               ∧ (lmRead l 4).x < (lmRead l 2).x then "A" else "") := by
  unfold HandsA.detect_left_hand
  rw [lmGet l 8 (by omega), lmGet l 5 (by omega), lmGet l 12 (by omega),
    lmGet l 9 (by omega), lmGet l 16 (by omega), lmGet l 13 (by omega),
    lmGet l 20 (by omega), lmGet l 17 (by omega), lmGet l 4 (by omega),
    lmGet l 2 (by omega)]

/-- C1: the claim says every per-symbol detection function maps an
absent, empty, or shorter-than-21 landmark list to the no-match result
without raising — in particular the A-rule detectors.  The A-rule
detectors in fact index `points[8]`, `points[6]`, … with no length
guard, so on the empty list (and on the spec's boundary length 20) they
raise `IndexError`, modelled as `none`, instead of returning `""`. -/
theorem c1_a_detectors_raise_on_short_input :
    HandsA.detect_right_hand [] = none ∧ HandsA.detect_left_hand [] = none ∧
    HandsA.detect_right_hand (List.replicate 20 defaultPoint) = none ∧
    HandsA.detect_left_hand (List.replicate 20 defaultPoint) = none := by
  refine ⟨rfl, rfl, ?_, ?_⟩ <;> decide

/-- C3 counterexample: on the concrete 21-point pose `aPose` the
right-hand A rule fires but the left-hand A rule rejects the mirrored
pose, because the two modules compare different joints. -/
theorem c3_mirror_symmetry_fails_for_A :
    HandsA.detect_left_hand (mirrorList aPose) ≠ HandsA.detect_right_hand aPose ∧
    HandsA.detect_right_hand aPose = some "A" ∧
    HandsA.detect_left_hand (mirrorList aPose) = some "" := by
  refine ⟨?_, ?_, ?_⟩ <;> decide

/-- C3 amended: mirror symmetry does hold for the symbols whose left
module mirrors the list and reuses the right-hand-frame rule body — for
every landmark list the D left detector on the mirrored list agrees
with the D right detector on the original. -/
theorem c3_d_detectors_mirror_symmetric (l : List Point) :
    HandsD.detect_left_hand (mirrorList l) ↔ HandsD.detect_right_hand l := by
  unfold HandsD.detect_left_hand HandsD.detect_right_hand HandsD.detect_d_internal
  rw [mirrorList_mirrorList]
  by_cases h : l = [] ∨ l.length < 21
  · rw [if_pos h, if_pos ?_]
    · rcases h with h | h
      · exact Or.inl (by rw [h]; rfl)
      · exact Or.inr (by rw [length_mirrorList]; exact h)
  · rw [if_neg h, if_neg ?_]
    · intro hc
      rcases hc with hc | hc
      · exact h (Or.inl ((mirrorList_nil_iff l).mp hc))
      · exact h (Or.inr (by rwa [length_mirrorList] at hc))

/-- C7: whenever the palm-orientation cross product of a 21-point list
is not strictly positive, the B-symbol right-hand rule returns the
no-match empty string, whatever the finger and thumb sub-tests say. -/
theorem c7_b_rule_requires_positive_cross (l : List Point)
    (h21 : l.length = 21) (hc : HandsB.cross_product l ≤ 0) :
    HandsB.detect_right_hand l = "" := by
  unfold HandsB.detect_right_hand HandsB.detect_right_hand_b_gesture
  rw [if_neg (by omega), if_pos]
  exact fun hv => absurd hv (not_lt.mpr hc)

/-- C7 witness: a concrete 21-point list with a non-positive cross
product on which the B rule returns no match. -/
theorem c7_b_rule_requires_positive_cross_w :
    HandsB.cross_product (List.replicate 21 defaultPoint) ≤ 0 ∧
    HandsB.detect_right_hand (List.replicate 21 defaultPoint) = "" :=
  ⟨by norm_num [HandsB.cross_product, lmRead],
   c7_b_rule_requires_positive_cross _ (by simp)
     (by norm_num [HandsB.cross_product, lmRead])⟩

/-- C9: the B-symbol right-hand detector demands length exactly 21 and
returns the empty string on every longer list, while the D-symbol
right-hand detector accepts a longer list and returns exactly what it
returns on the list's first 21 elements. -/
theorem c9_b_exact_length_d_min_length :
    (∀ l : List Point, 21 < l.length → HandsB.detect_right_hand l = "") ∧
    (∀ l : List Point, 21 < l.length →
      (HandsD.detect_right_hand l ↔ HandsD.detect_right_hand (l.take 21))) := by
  constructor
  · intro l h
    unfold HandsB.detect_right_hand HandsB.detect_right_hand_b_gesture
    rw [if_pos (by omega)]
  · intro l h
    have hlen : (l.take 21).length = 21 := by
      rw [List.length_take]; omega
    unfold HandsD.detect_right_hand
    rw [if_neg ?_, if_neg ?_]
    · simp only [HandsD.d_body]
      rw [lmRead_take_of_lt l 21 4 (by norm_num),
        lmRead_take_of_lt l 21 5 (by norm_num), lmRead_take_of_lt l 21 6 (by norm_num),
        lmRead_take_of_lt l 21 7 (by norm_num), lmRead_take_of_lt l 21 8 (by norm_num),
        lmRead_take_of_lt l 21 9 (by norm_num), lmRead_take_of_lt l 21 10 (by norm_num),
        lmRead_take_of_lt l 21 12 (by norm_num), lmRead_take_of_lt l 21 13 (by norm_num),
        lmRead_take_of_lt l 21 14 (by norm_num), lmRead_take_of_lt l 21 16 (by norm_num),
        lmRead_take_of_lt l 21 17 (by norm_num), lmRead_take_of_lt l 21 18 (by norm_num),
        lmRead_take_of_lt l 21 20 (by norm_num)]
    · rintro (hnil | hlt)
      · rw [hnil] at hlen; simp at hlen
      · omega
    · rintro (rfl | hlt)
      · simp at h
      · omega

/-- C6: `angle_deg` always yields a value in `[0, 180]` degrees; when
either ray is shorter than `1e-8` it yields exactly `180`, and otherwise
it yields the arc cosine (converted to degrees) of the normalized dot
product clamped to `[-1, 1]`, so the computation is total. -/
theorem c6_angle_deg_range_and_branches (a b c : Point) :
    0 ≤ HandsD.angle_deg a b c ∧ HandsD.angle_deg a b c ≤ 180 ∧
    ((HandsD.vnorm (HandsD.vec b a) < 1e-8 ∨ HandsD.vnorm (HandsD.vec b c) < 1e-8) →
      HandsD.angle_deg a b c = 180) ∧
    (¬ (HandsD.vnorm (HandsD.vec b a) < 1e-8 ∨ HandsD.vnorm (HandsD.vec b c) < 1e-8) →
      HandsD.angle_deg a b c =
        Real.arccos (max (-1) (min 1 ((HandsD.dot (HandsD.vec b a) (HandsD.vec b c) : ℝ) /
          (HandsD.vnorm (HandsD.vec b a) * HandsD.vnorm (HandsD.vec b c))))) * 180 /
            Real.pi) := by
  simp only [HandsD.angle_deg]
  by_cases h : HandsD.vnorm (HandsD.vec b a) < 1e-8 ∨ HandsD.vnorm (HandsD.vec b c) < 1e-8
  · rw [if_pos h]
    exact ⟨by norm_num, by norm_num, fun _ => rfl, fun hn => absurd h hn⟩
  · rw [if_neg h]
    have h0 : 0 ≤ Real.arccos (max (-1) (min 1 ((HandsD.dot (HandsD.vec b a) (HandsD.vec b c) : ℝ) /
        (HandsD.vnorm (HandsD.vec b a) * HandsD.vnorm (HandsD.vec b c))))) :=
      Real.arccos_nonneg _
    have h1 : Real.arccos (max (-1) (min 1 ((HandsD.dot (HandsD.vec b a) (HandsD.vec b c) : ℝ) /
        (HandsD.vnorm (HandsD.vec b a) * HandsD.vnorm (HandsD.vec b c))))) ≤ Real.pi :=
      Real.arccos_le_pi _
    have hpi := Real.pi_pos
    refine ⟨by positivity, ?_, fun hh => absurd hh h, fun _ => rfl⟩
    rw [div_le_iff₀ hpi]
    nlinarith

/-- C8: any 21-point list whose thumb-tip-to-index-tip distance is at
least `0.3` of the palm width is rejected by the F-symbol right-hand
rule, whose tip-contact test demands that distance be below `0.25` of
the palm width. -/
theorem c8_f_rule_rejects_separated_tips (l : List Point)
    (h21 : l.length = 21)
    (hd : 0.3 * distance (lmRead l 5) (lmRead l 17) ≤
      distance (lmRead l 4) (lmRead l 8)) :
    ¬ HandsF.detect_right_hand l := by
  unfold HandsF.detect_right_hand
  rw [if_neg ?_]
  · intro hb
    simp only [HandsF.f_body] at hb
    have h1 := hb.1.1
    have hpw := distance_nonneg (lmRead l 5) (lmRead l 17)
    linarith
  · rintro (rfl | hlt)
    · simp at h21
    · omega

/-- C8 witness: the all-zero 21-point list (palm width `0`) satisfies
the hypothesis and is rejected. -/
theorem c8_f_rule_rejects_separated_tips_w :
    ¬ HandsF.detect_right_hand (List.replicate 21 defaultPoint) := by
  refine c8_f_rule_rejects_separated_tips _ (by simp) ?_
  have hz : ∀ i : Nat, lmRead (List.replicate 21 defaultPoint) i = defaultPoint := by
    intro i
    rw [lmRead, List.getD_eq_getElem?_getD, List.getElem?_replicate]
    by_cases hi : i < 21
    · rw [if_pos hi]
      rfl
    · rw [if_neg hi]
      rfl
  rw [hz 5, hz 17, hz 4, hz 8]
  have : distance defaultPoint defaultPoint = 0 := by
    simp [distance, defaultPoint]
  rw [this]
  norm_num

/-- C10: at the heap level, running a left-hand detector leaves every
pre-existing `Point` cell untouched — the mirrored landmarks are fresh
allocations, not in-place updates — and its boolean result is exactly
the value-level detector's on the read landmark values. -/
theorem c10_detectors_do_not_mutate_input :
    (∀ (σ : List Point) (addrs : List Nat) (a : Nat), a < σ.length →
      readPt (HandsC.detect_left_hand_st σ addrs).2 a = readPt σ a) ∧
    (∀ (σ : List Point) (addrs : List Nat) (a : Nat), a < σ.length →
      readPt (HandsD.detect_left_hand_st σ addrs).2 a = readPt σ a) ∧
    (∀ (σ : List Point) (addrs : List Nat) (a : Nat), a < σ.length →
      readPt (HandsF.detect_left_hand_f_real_camera_st σ addrs).2 a = readPt σ a) ∧
    (∀ (σ : List Point) (addrs : List Nat),
      ((HandsC.detect_left_hand_st σ addrs).1 ↔
        HandsC.detect_left_hand (addrs.map (readPt σ)))) := by
  refine ⟨?_, ?_, ?_, ?_⟩
  · intro σ addrs a h
    unfold HandsC.detect_left_hand_st
    by_cases hg : addrs = [] ∨ addrs.length < 21
    · rw [if_pos hg]
    · rw [if_neg hg]
      exact readPt_append _ _ _ h
  · intro σ addrs a h
    unfold HandsD.detect_left_hand_st
    by_cases hg : addrs = [] ∨ addrs.length < 21
    · rw [if_pos hg]
    · rw [if_neg hg]
      exact readPt_append _ _ _ h
  · intro σ addrs a h
    unfold HandsF.detect_left_hand_f_real_camera_st
    by_cases hg : addrs = [] ∨ addrs.length < 21
    · rw [if_pos hg]
    · rw [if_neg hg]
      exact readPt_append _ _ _ h
  · intro σ addrs
    unfold HandsC.detect_left_hand_st HandsC.detect_left_hand
    by_cases hg : addrs = [] ∨ addrs.length < 21
    · rw [if_pos hg, if_pos ?_]
      rcases hg with hg | hg
      · exact Or.inl (by rw [hg]; rfl)
      · exact Or.inr (by simpa using hg)
    · rw [if_neg hg, if_neg ?_]
      intro hc
      rcases hc with hc | hc
      · exact hg (Or.inl (by simpa using hc))
      · exact hg (Or.inr (by simpa using hc))

/-- C4 counterexample: with the unknown handedness label `"Unknown"`
the classification of the concrete pose `aPose` is `"A"`, not the
no-match result — the pipeline evaluates the right-hand rules for every
label other than `"Left"` instead of rejecting malformed handedness. -/
theorem c4_unknown_handedness_not_rejected :
    WsServer.classify aPose "Unknown" = some "A" ∧
    (some "A" : Option String) ≠ some "" := by
  constructor
  · have hA : HandsA.detect_right_hand (WsServer.convert_mediapipe_to_points aPose)
        = some "A" := by decide
    simp only [WsServer.classify]
    rw [if_neg (by decide : ¬ ("Unknown" = "Left")), hA]
    rw [Option.some_bind]
    rw [if_pos (by decide : ("A" : String) ≠ "")]
  · decide

/-- C4 amended: the pipeline treats every handedness label other than
`"Left"` — including unknown or missing values — exactly as `"Right"`,
evaluating the right-hand rules rather than returning no match. -/
theorem c4_unknown_handedness_treated_as_right
    (lms : List Point) (label : String) (h : label ≠ "Left") :
    WsServer.classify lms label = WsServer.classify lms "Right" := by
  simp only [WsServer.classify]
  rw [if_neg h, if_neg (by decide : ¬ ("Right" = "Left"))]

/-- C4 amended witness: the label `"Up"` is classified like `"Right"`. -/
theorem c4_unknown_handedness_treated_as_right_w :
    WsServer.classify aPose "Up" = WsServer.classify aPose "Right" :=
  c4_unknown_handedness_treated_as_right aPose "Up" (by decide)

open Classical in
lemma find3_getD (p : String → Bool) :
    (((["A", "B", "C"] : List String).find? p).getD "") =
      (if p "A" = true then "A" else if p "B" = true then "B"
       else if p "C" = true then "C" else "") := by
  cases hA : p "A" <;> cases hB : p "B" <;> cases hC : p "C" <;>
    simp [List.find?, hA, hB, hC]

lemma ruleMatches_A_iff (pts : List Point) (label : String) :
    WsServer.ruleMatches "A" pts label ↔
      (match (if label = "Left" then HandsA.detect_left_hand pts
              else HandsA.detect_right_hand pts) with
       | some s => s ≠ ""
       | none => False) := by
  unfold WsServer.ruleMatches
  rw [if_pos rfl]

lemma ruleMatches_B_iff (pts : List Point) (label : String) :
    WsServer.ruleMatches "B" pts label ↔
      (if label = "Left" then HandsB.detect_left_hand pts
       else HandsB.detect_right_hand pts) ≠ "" := by
  unfold WsServer.ruleMatches
  rw [if_neg (by decide : ¬ (("B" : String) = "A")), if_pos rfl]

lemma ruleMatches_C_iff (pts : List Point) (label : String) :
    WsServer.ruleMatches "C" pts label ↔
      (if label = "Left" then HandsC.detect_left_hand pts
       else HandsC.detect_right_hand pts) := by
  unfold WsServer.ruleMatches
  rw [if_neg (by decide : ¬ (("C" : String) = "A")),
    if_neg (by decide : ¬ (("C" : String) = "B")), if_pos rfl]

open Classical in
lemma specClassify_eq (lms : List Point) (label : String) :
    WsServer.specClassify lms label =
      (if WsServer.ruleMatches "A" (WsServer.convert_mediapipe_to_points lms) label
       then "A"
       else if WsServer.ruleMatches "B" (WsServer.convert_mediapipe_to_points lms) label
       then "B"
       else if WsServer.ruleMatches "C" (WsServer.convert_mediapipe_to_points lms) label
       then "C"
       else "") := by
  simp only [WsServer.specClassify, WsServer.LETTERS]
  rw [find3_getD]
  simp only [decide_eq_true_eq]

lemma first_match_bridge (sA : String) (dB : String) (dC : Prop) [Decidable dC] :
    ((some sA).bind fun s =>
      if s ≠ "" then some "A"
      else if dB ≠ "" then some "B"
      else if dC then some "C"
      else some "") =
    some (if sA ≠ "" then "A" else if dB ≠ "" then "B" else if dC then "C" else "") := by
  rw [Option.some_bind]
  by_cases h1 : sA ≠ ""
  · rw [if_pos h1, if_pos h1]
  · rw [if_neg h1, if_neg h1]
    by_cases h2 : dB ≠ ""
    · rw [if_pos h2, if_pos h2]
    · rw [if_neg h2, if_neg h2]
      by_cases h3 : dC
      · rw [if_pos h3, if_pos h3]
      · rw [if_neg h3, if_neg h3]

/-- C2: on 21-point landmark sets the per-frame loop of `handle_client`
computes exactly the spec's classifier — the registered rules are
evaluated in the registration order A, B, C and the first letter whose
rule is truthy is returned, `""` if none is; a tie between several
truthy rules therefore goes to the earliest-registered letter. -/
theorem c2_classify_is_first_match_in_order
    (lms : List Point) (label : String) (h : lms.length = 21) :
    WsServer.classify lms label = some (WsServer.specClassify lms label) := by
  have hlen : (WsServer.convert_mediapipe_to_points lms).length = 21 := by
    simp [WsServer.convert_mediapipe_to_points, h]
  rw [specClassify_eq]
  simp only [WsServer.classify]
  by_cases hL : label = "Left"
  · obtain ⟨sA, hsA⟩ : ∃ s, HandsA.detect_left_hand
        (WsServer.convert_mediapipe_to_points lms) = some s :=
      ⟨_, detect_left_hand_A_eq _ (by omega)⟩
    have hrmA : WsServer.ruleMatches "A"
        (WsServer.convert_mediapipe_to_points lms) label ↔ sA ≠ "" := by
      rw [ruleMatches_A_iff, if_pos hL, hsA]
    have hrmB : WsServer.ruleMatches "B"
        (WsServer.convert_mediapipe_to_points lms) label ↔
        HandsB.detect_left_hand (WsServer.convert_mediapipe_to_points lms) ≠ "" := by
      rw [ruleMatches_B_iff, if_pos hL]
    have hrmC : WsServer.ruleMatches "C"
        (WsServer.convert_mediapipe_to_points lms) label ↔
        HandsC.detect_left_hand (WsServer.convert_mediapipe_to_points lms) := by
      rw [ruleMatches_C_iff, if_pos hL]
    rw [if_pos hL, hsA, first_match_bridge]
    by_cases h1 : sA ≠ ""
    · rw [if_pos h1, if_pos (hrmA.mpr h1)]
    · rw [if_neg h1, if_neg (fun hh => h1 (hrmA.mp hh))]
      by_cases h2 : HandsB.detect_left_hand
          (WsServer.convert_mediapipe_to_points lms) ≠ ""
      · rw [if_pos h2, if_pos (hrmB.mpr h2)]
      · rw [if_neg h2, if_neg (fun hh => h2 (hrmB.mp hh))]
        by_cases h3 : HandsC.detect_left_hand
            (WsServer.convert_mediapipe_to_points lms)
        · rw [if_pos h3, if_pos (hrmC.mpr h3)]
        · rw [if_neg h3, if_neg (fun hh => h3 (hrmC.mp hh))]
  · obtain ⟨sA, hsA⟩ : ∃ s, HandsA.detect_right_hand
        (WsServer.convert_mediapipe_to_points lms) = some s :=
      ⟨_, detect_right_hand_A_eq _ (by omega)⟩
    have hrmA : WsServer.ruleMatches "A"
        (WsServer.convert_mediapipe_to_points lms) label ↔ sA ≠ "" := by
      rw [ruleMatches_A_iff, if_neg hL, hsA]
    have hrmB : WsServer.ruleMatches "B"
        (WsServer.convert_mediapipe_to_points lms) label ↔
        HandsB.detect_right_hand (WsServer.convert_mediapipe_to_points lms) ≠ "" := by
      rw [ruleMatches_B_iff, if_neg hL]
    have hrmC : WsServer.ruleMatches "C"
        (WsServer.convert_mediapipe_to_points lms) label ↔
        HandsC.detect_right_hand (WsServer.convert_mediapipe_to_points lms) := by
      rw [ruleMatches_C_iff, if_neg hL]
    rw [if_neg hL, hsA, first_match_bridge]
    by_cases h1 : sA ≠ ""
    · rw [if_pos h1, if_pos (hrmA.mpr h1)]
    · rw [if_neg h1, if_neg (fun hh => h1 (hrmA.mp hh))]
      by_cases h2 : HandsB.detect_right_hand
          (WsServer.convert_mediapipe_to_points lms) ≠ ""
      · rw [if_pos h2, if_pos (hrmB.mpr h2)]
      · rw [if_neg h2, if_neg (fun hh => h2 (hrmB.mp hh))]
        by_cases h3 : HandsC.detect_right_hand
            (WsServer.convert_mediapipe_to_points lms)
        · rw [if_pos h3, if_pos (hrmC.mpr h3)]
        · rw [if_neg h3, if_neg (fun hh => h3 (hrmC.mp hh))]

/-- C2 witness: the hypothesis holds at the concrete 21-point pose
`aPose`, where both sides are `some "A"` under the `"Right"` label. -/
theorem c2_classify_is_first_match_in_order_w :
    WsServer.classify aPose "Right" =
      some (WsServer.specClassify aPose "Right") :=
  c2_classify_is_first_match_in_order aPose "Right" (by decide)

lemma scale_y_lt (w : Point) (k : ℚ) (hk : 0 < k) (p q : Point) :
    (w.y + k * (p.y - w.y) < w.y + k * (q.y - w.y)) ↔ p.y < q.y := by
  rw [add_lt_add_iff_left, mul_lt_mul_left hk, sub_lt_sub_iff_right]

lemma scale_x_lt (w : Point) (k : ℚ) (hk : 0 < k) (p q : Point) :
    (w.x + k * (p.x - w.x) < w.x + k * (q.x - w.x)) ↔ p.x < q.x := by
  rw [add_lt_add_iff_left, mul_lt_mul_left hk, sub_lt_sub_iff_right]

/-- C5 amended: the A-symbol detectors, built purely from coordinate
comparisons, are invariant under scaling the landmarks' x and y
coordinates about the wrist by any factor `k > 0` — but the full
classification is not (see the counterexample), because the B rule's
thumb-alignment threshold `0.1` is an absolute constant. -/
theorem c5_a_rule_scale_invariant (l : List Point) (k : ℚ) (hk : 0 < k) :
    HandsA.detect_right_hand (scaleAboutWrist k l) = HandsA.detect_right_hand l ∧
    HandsA.detect_left_hand (scaleAboutWrist k l) = HandsA.detect_left_hand l := by
  constructor
  · unfold HandsA.detect_right_hand scaleAboutWrist
    simp only [List.get?_eq_getElem?, List.getElem?_map]
    cases h8 : l[8]? with
    | none => rfl
    | some p8 =>
    cases h6 : l[6]? with
    | none => rfl
    | some p6 =>
    cases h12 : l[12]? with
    | none => rfl
    | some p12 =>
    cases h10 : l[10]? with
    | none => rfl
    | some p10 =>
    cases h16 : l[16]? with
    | none => rfl
    | some p16 =>
    cases h14 : l[14]? with
    | none => rfl
    | some p14 =>
    cases h20 : l[20]? with
    | none => rfl
    | some p20 =>
    cases h18 : l[18]? with
    | none => rfl
    | some p18 =>
    cases h4 : l[4]? with
    | none => rfl
    | some p4 =>
    cases h3 : l[3]? with
    | none => rfl
    | some p3 =>
    simp only [Option.map_some']
    simp [gt_iff_lt, scale_y_lt _ _ hk, scale_x_lt _ _ hk]
  · unfold HandsA.detect_left_hand scaleAboutWrist
    simp only [List.get?_eq_getElem?, List.getElem?_map]
    cases h8 : l[8]? with
    | none => rfl
    | some p8 =>
    cases h5 : l[5]? with
    | none => rfl
    | some p5 =>
    cases h12 : l[12]? with
    | none => rfl
    | some p12 =>
    cases h9 : l[9]? with
    | none => rfl
    | some p9 =>
    cases h16 : l[16]? with
    | none => rfl
    | some p16 =>
    cases h13 : l[13]? with
    | none => rfl
    | some p13 =>
    cases h20 : l[20]? with
    | none => rfl
    | some p20 =>
    cases h17 : l[17]? with
    | none => rfl
    | some p17 =>
    cases h4 : l[4]? with
    | none => rfl
    | some p4 =>
    cases h2 : l[2]? with
    | none => rfl
    | some p2 =>
    simp only [Option.map_some']
    simp [gt_iff_lt, scale_y_lt _ _ hk, scale_x_lt _ _ hk]

/-- C5 amended witness: scaling the concrete A pose by `k = 2` leaves
both A detectors' results unchanged. -/
theorem c5_a_rule_scale_invariant_w :
    HandsA.detect_right_hand (scaleAboutWrist 2 aPose) = HandsA.detect_right_hand aPose ∧
    HandsA.detect_left_hand (scaleAboutWrist 2 aPose) = HandsA.detect_left_hand aPose :=
  c5_a_rule_scale_invariant aPose 2 (by norm_num)

lemma countBound (c d : Prop) [Decidable c] [Decidable d] :
    0 + 0 + (if c then (1 : ℕ) else 0) + (if d then 1 else 0) < 3 := by
  by_cases hc : c <;> by_cases hd : d <;> simp [hc, hd]

open Classical

/-- C5 counterexample: scaling the concrete pose `bPose` about the
wrist by `k = 2 > 0` changes the classification from `"B"` to no match:
the doubled thumb-to-index-MCP y gap `0.12` crosses the B rule's
absolute `0.1` alignment threshold. -/
theorem c5_scaling_changes_classification :
    (0 : ℚ) < 2 ∧
    WsServer.classify bPose "Right" = some "B" ∧
    WsServer.classify (scaleAboutWrist 2 bPose) "Right" = some "" := by
  refine ⟨by norm_num, ?_, ?_⟩
  · have hA : HandsA.detect_right_hand
        (WsServer.convert_mediapipe_to_points bPose) = some "" := by
      norm_num [HandsA.detect_right_hand, WsServer.convert_mediapipe_to_points,
        bPose]
    have hB : HandsB.detect_right_hand
        (WsServer.convert_mediapipe_to_points bPose) = "B" := by
      norm_num [HandsB.detect_right_hand, HandsB.detect_right_hand_b_gesture,
        HandsB.is_right_hand_palm_visible, HandsB.cross_product,
        HandsB.are_four_fingers_extended, HandsB.is_thumb_folded_against_palm,
        HandsB.is_thumb_aligned_horizontally, bPose, lmRead, abs,
        WsServer.convert_mediapipe_to_points]
    simp only [WsServer.classify]
    rw [if_neg (by decide : ¬ (("Right" : String) = "Left")), hA,
      Option.some_bind, if_neg (by decide : ¬ (("" : String) ≠ "")), hB,
      if_pos (by decide : ("B" : String) ≠ "")]
  · have hA : HandsA.detect_right_hand
        (WsServer.convert_mediapipe_to_points (scaleAboutWrist 2 bPose))
          = some "" := by
      norm_num [HandsA.detect_right_hand, WsServer.convert_mediapipe_to_points,
        bPose, scaleAboutWrist, lmRead]
    have hB : HandsB.detect_right_hand
        (WsServer.convert_mediapipe_to_points (scaleAboutWrist 2 bPose)) = "" := by
      norm_num [HandsB.detect_right_hand, HandsB.detect_right_hand_b_gesture,
        HandsB.is_right_hand_palm_visible, HandsB.cross_product,
        HandsB.are_four_fingers_extended, HandsB.is_thumb_folded_against_palm,
        HandsB.is_thumb_aligned_horizontally, bPose, lmRead, abs,
        WsServer.convert_mediapipe_to_points, scaleAboutWrist]
    have hlen : (WsServer.convert_mediapipe_to_points
        (scaleAboutWrist 2 bPose)).length = 21 := by
      simp [WsServer.convert_mediapipe_to_points, scaleAboutWrist, bPose]
    have h0 : lmRead (WsServer.convert_mediapipe_to_points
        (scaleAboutWrist 2 bPose)) 0 = ⟨1/2, 9/10, 0⟩ := by
      norm_num [lmRead, WsServer.convert_mediapipe_to_points, scaleAboutWrist,
        bPose, Point.mk.injEq]
    have h5 : lmRead (WsServer.convert_mediapipe_to_points
        (scaleAboutWrist 2 bPose)) 5 = ⟨13/10, 1/2, 0⟩ := by
      norm_num [lmRead, WsServer.convert_mediapipe_to_points, scaleAboutWrist,
        bPose, Point.mk.injEq]
    have h8 : lmRead (WsServer.convert_mediapipe_to_points
        (scaleAboutWrist 2 bPose)) 8 = ⟨27/50, 23/50, 0⟩ := by
      norm_num [lmRead, WsServer.convert_mediapipe_to_points, scaleAboutWrist,
        bPose, Point.mk.injEq]
    have h9 : lmRead (WsServer.convert_mediapipe_to_points
        (scaleAboutWrist 2 bPose)) 9 = ⟨6/5, 23/50, 0⟩ := by
      norm_num [lmRead, WsServer.convert_mediapipe_to_points, scaleAboutWrist,
        bPose, Point.mk.injEq]
    have h12 : lmRead (WsServer.convert_mediapipe_to_points
        (scaleAboutWrist 2 bPose)) 12 = ⟨27/50, 21/50, 0⟩ := by
      norm_num [lmRead, WsServer.convert_mediapipe_to_points, scaleAboutWrist,
        bPose, Point.mk.injEq]
    have hncIdx : ¬ HandsC.curvedCond ⟨1/2, 9/10, 0⟩ ⟨27/50, 23/50, 0⟩
        ⟨13/10, 1/2, 0⟩ := by
      intro hc
      have h1 := hc.1
      have hle : distance (⟨27/50, 23/50, 0⟩ : Point) ⟨1/2, 9/10, 0⟩ ≤
          distance (⟨13/10, 1/2, 0⟩ : Point) ⟨1/2, 9/10, 0⟩ * 0.9 := by
        rw [mul_comm]
        unfold distance
        apply sqrt_le_mul_sqrt (by norm_num)
        push_cast
        norm_num
      exact absurd h1 (not_lt.mpr hle)
    have hncMid : ¬ HandsC.curvedCond ⟨1/2, 9/10, 0⟩ ⟨27/50, 21/50, 0⟩
        ⟨6/5, 23/50, 0⟩ := by
      intro hc
      have h1 := hc.1
      have hle : distance (⟨27/50, 21/50, 0⟩ : Point) ⟨1/2, 9/10, 0⟩ ≤
          distance (⟨6/5, 23/50, 0⟩ : Point) ⟨1/2, 9/10, 0⟩ * 0.9 := by
        rw [mul_comm]
        unfold distance
        apply sqrt_le_mul_sqrt (by norm_num)
        push_cast
        norm_num
      exact absurd h1 (not_lt.mpr hle)
    have hC : ¬ HandsC.detect_right_hand
        (WsServer.convert_mediapipe_to_points (scaleAboutWrist 2 bPose)) := by
      unfold HandsC.detect_right_hand
      rw [if_neg ?_]
      · intro hc
        simp only [HandsC.detect_c_shape_internal] at hc
        refine hc.2.1 ?_
        rw [h0, h5, h8, h9, h12, if_neg hncIdx, if_neg hncMid]
        apply countBound
      · rintro (hnil | hlt)
        · rw [hnil] at hlen
          simp at hlen
        · omega
    simp only [WsServer.classify]
    rw [if_neg (by decide : ¬ (("Right" : String) = "Left")), hA,
      Option.some_bind, if_neg (by decide : ¬ (("" : String) ≠ "")), hB,
      if_neg (by decide : ¬ (("" : String) ≠ "")), if_neg hC]
